import Mathlib

set_option maxRecDepth 4000

/-!
Verification of the `anymatix-portable-comfyui` packaging scripts.

This file gives a shallow embedding of the two Python source files
`create_portable_comfyui.py` and `github_automation.py` and proves the
specification claims about them.

Modelling conventions:
  * Pure string manipulation from the Python standard library
    (`str.lower`, `str.strip`, `str.replace`, `str.startswith`,
    `os.path.basename`, `os.path.dirname`, `os.path.relpath`,
    `os.path.join`) is re-implemented over `List Char` so that every
    definition is executable and kernel-reducible.
  * Effectful code is embedded in a state-plus-exceptions monad whose
    state is the list of side effects (events) performed so far.  A
    Python exception is an `Except.error`; the event log survives the
    exception, so theorems can speak about which side effects happened
    before a failure.
  * The external world (the platform strings reported by the `platform`
    module, the exit code / stdout / stderr of each external command,
    file contents, the directory walk) is a record of oracles `Env`
    supplied to the embedded program, mirroring the data the real
    program reads from its environment.
-/

namespace PortableComfyui

/-- Model of `str.lower` for a single ASCII character (the strings this
program lowercases are ASCII platform identifiers). -/
def lowerChar (c : Char) : Char :=
  if 'A' ≤ c ∧ c ≤ 'Z' then Char.ofNat (c.toNat + 32) else c

/-- Model of Python `str.lower`. -/
def pyLower (s : String) : String := String.mk (s.data.map lowerChar)

/-- Character-list prefix test (model of Python `str.startswith`). -/
def strHasPre (pre s : List Char) : Bool :=
  match pre, s with
  | [], _ => true
  | _ :: _, [] => false
  | p :: ps, c :: cs => p == c && strHasPre ps cs

/-- Character-list substring test. -/
def strHasSub (needle : List Char) : List Char → Bool
  | [] => strHasPre needle []
  | c :: rest => strHasPre needle (c :: rest) || strHasSub needle rest

/-- Substring containment on strings. -/
def containsStr (hay needle : String) : Bool := strHasSub needle.data hay.data

/-- Whitespace test used by the `str.strip` model. -/
def isSpaceChar (c : Char) : Bool :=
  c == ' ' || c == '\t' || c == '\n' || c == '\r'

/-- Model of Python `str.strip` (no argument form). -/
def pyStrip (s : String) : String :=
  String.mk (((s.data.dropWhile isSpaceChar).reverse.dropWhile isSpaceChar).reverse)

/-- Fuel-indexed worker for `pyReplace`; each step consumes at least one
character of the haystack, so `hay.length` fuel is always enough. -/
def replaceFuel (old new : List Char) : Nat → List Char → List Char
  | _, [] => []
  | 0, hay => hay
  | n + 1, c :: rest =>
      if strHasPre old (c :: rest) && !old.isEmpty then
        new ++ replaceFuel old new n (List.drop (old.length - 1) rest)
      else
        c :: replaceFuel old new n rest

/-- Model of Python `str.replace`: replaces every non-overlapping
occurrence of `old` (non-empty in all uses in this program), scanning
left to right. -/
def pyReplace (s old new : String) : String :=
  String.mk (replaceFuel old.data new.data s.data.length s.data)

/-- Model of Python `str.startswith` applied to a tuple of prefixes. -/
def startswithAny (s : String) : List String → Bool
  | [] => false
  | p :: ps => strHasPre p.data s.data || startswithAny s ps

/-- Worker for the `os.path.basename` model: keeps the run of characters
after the last slash. -/
def basenameAux : List Char → List Char → List Char
  | cur, [] => cur
  | cur, c :: rest => if c == '/' then basenameAux [] rest else basenameAux (cur ++ [c]) rest

/-- Model of `os.path.basename` for slash-separated paths. -/
def basename (p : String) : String := String.mk (basenameAux [] p.data)

/-- Model of `os.path.dirname` for slash-separated paths. -/
def dirname (p : String) : String :=
  let n := (basename p).data.length
  if n == p.data.length then "" else String.mk (p.data.take (p.data.length - (n + 1)))

/-- Model of `os.path.relpath`, adequate for the relative paths this
program passes to it (`start` is `""` in the only call site, where
Python returns the path unchanged). -/
def relpath (p start : String) : String :=
  if start = "" then p
  else if strHasPre (start ++ "/").data p.data then String.mk (p.data.drop (start.data.length + 1))
  else p

/-- Model of `os.path.join` for the POSIX separator used throughout. -/
def pjoin (a b : String) : String := a ++ "/" ++ b

/-- Model of `" ".join(cmd)` used in `run_command`'s error report. -/
def joinSpace : List String → String
  | [] => ""
  | [x] => x
  | x :: xs => x ++ " " ++ joinSpace xs

namespace CPC

/-! ### Embedding of `create_portable_comfyui.py` -/

/-- One side effect performed by the packaging pipeline. -/
inductive Event where
  | makedirs (p : String)
  | printE (s : String)
  | download (url dest : String)
  | chmodE (p : String)
  | removeE (p : String)
  | sleepE (n : Nat)
  | cmd (c : List String)
  | writeF (p body : String)
  | appendF (p line : String)
  | zipAdd (zipName path arcname : String)
  deriving DecidableEq

/-- A command line, as passed to `subprocess.run`. -/
abbrev Cmd := List String

/-- The external world as observed by `create_portable_comfyui.py`:
platform strings, command outcomes, and file-system contents. -/
structure Env where
  rawSystem : String
  rawMachine : String
  cwd : String
  version : String
  requirements : List String
  repos : List String
  rcOf : Cmd → Int
  outOf : Cmd → String
  errOf : Cmd → String
  binDirExists : Bool
  binFiles : List String
  walk : List (String × List String)
  fileExists : String → Bool
  args_ci : Bool
  args_push : Bool
  args_trigger : Bool
  args_workflow : String
  args_branch : String

/-- The pipeline monad: an event log plus Python-style exceptions.  The
log survives a raised exception. -/
def M (α : Type) : Type := List Event → Except String α × List Event

def M.pure (a : α) : M α := fun s => (Except.ok a, s)

def M.bind (x : M α) (f : α → M β) : M β := fun s =>
  match x s with
  | (Except.ok a, s') => f a s'
  | (Except.error e, s') => (Except.error e, s')

instance : Monad M where
  pure := M.pure
  bind := M.bind

/-- Record a side effect. -/
def M.emit (e : Event) : M Unit := fun s => (Except.ok (), s ++ [e])

/-- Model of Python `print`. -/
def M.printE (t : String) : M Unit := M.emit (Event.printE t)

/-- Model of Python `raise`. -/
def M.throwE (msg : String) : M α := fun s => (Except.error msg, s)

/-- Lift a pure fallible computation into the pipeline monad. -/
def M.ofExcept : Except String α → M α
  | Except.ok a => fun s => (Except.ok a, s)
  | Except.error e => fun s => (Except.error e, s)

/-- Model of Python `try`/`except Exception`. -/
def M.tryCatchE (x : M α) (h : String → M α) : M α := fun s =>
  match x s with
  | (Except.ok a, s') => (Except.ok a, s')
  | (Except.error e, s') => h e s'

/-- Sequential iteration, modelling a Python `for` loop. -/
def M.forEach : List α → (α → M Unit) → M Unit
  | [], _ => pure ()
  | a :: as, f => do
      f a
      M.forEach as f

/-- Constant `ANYMATIX_DIR`. -/
def ANYMATIX_DIR : String := "anymatix"

/-- Constant `PYTHON_DIR` (`os.path.join(ANYMATIX_DIR, "python")`). -/
def PYTHON_DIR : String := pjoin ANYMATIX_DIR "python"

/-- Constant `COMFYUI_DIR`. -/
def COMFYUI_DIR : String := pjoin ANYMATIX_DIR "ComfyUI"

/-- Constant `CUSTOM_NODES_DIR`. -/
def CUSTOM_NODES_DIR : String := pjoin COMFYUI_DIR "custom_nodes"

/-- Constant `COMFYUI_REPO`. -/
def COMFYUI_REPO : String := "https://github.com/comfyanonymous/ComfyUI.git"

/-- Constant `MINIFORGE_BASE_URL`. -/
def MINIFORGE_BASE_URL : String :=
  "https://github.com/conda-forge/miniforge/releases/latest/download"

/-- Model of `os.path.abspath` relative to the working directory oracle. -/
def abspath (env : Env) (p : String) : String := pjoin env.cwd p

/-- Embedding of `get_version`: reads `VERSION.txt` (an environment
oracle) and strips it. -/
def get_version (env : Env) : String := pyStrip env.version

/-- The `arch_map` dictionary lookup of `get_platform_info`, written as
an equivalent chain of comparisons against the (distinct) literal keys;
an absent key falls through to the queried string itself, mirroring
`arch_map.get(machine, machine)`. -/
def normalizeArch (machine : String) : String :=
  if machine = "x86_64" then "x64"
  else if machine = "amd64" then "x64"
  else if machine = "i386" then "x86"
  else if machine = "i686" then "x86"
  else if machine = "arm64" then "arm64"
  else if machine = "aarch64" then "arm64"
  else machine

/-- Embedding of `get_platform_info`: lowercases `platform.system()` and
`platform.machine()` and normalizes the architecture. -/
def get_platform_info (rawSystem rawMachine : String) : String × String :=
  let system := pyLower rawSystem
  let machine := pyLower rawMachine
  (system, normalizeArch machine)

/-- Embedding of `get_miniforge_url`: resolves the Miniforge installer
URL per platform, raising `ValueError` (an `Except.error`) on any
unsupported (system, machine) pair. -/
def get_miniforge_url (rawSystem rawMachine : String) : Except String String :=
  let pi := get_platform_info rawSystem rawMachine
  let system := pi.1
  let machine := pi.2
  if system = "darwin" then
    if machine = "x64" then Except.ok (MINIFORGE_BASE_URL ++ "/Miniforge3-MacOSX-x86_64.sh")
    else if machine = "arm64" then Except.ok (MINIFORGE_BASE_URL ++ "/Miniforge3-MacOSX-arm64.sh")
    else Except.error ("Unsupported platform: " ++ system ++ " " ++ machine)
  else if system = "linux" then
    if machine = "x64" then Except.ok (MINIFORGE_BASE_URL ++ "/Miniforge3-Linux-x86_64.sh")
    else if machine = "arm64" then Except.ok (MINIFORGE_BASE_URL ++ "/Miniforge3-Linux-aarch64.sh")
    else Except.error ("Unsupported platform: " ++ system ++ " " ++ machine)
  else if system = "windows" then
    if machine = "x64" then Except.ok (MINIFORGE_BASE_URL ++ "/Miniforge3-Windows-x86_64.exe")
    else Except.error ("Unsupported platform: " ++ system ++ " " ++ machine)
  else Except.error ("Unsupported platform: " ++ system ++ " " ++ machine)

/-- Embedding of `run_command`: runs the command (recording it in the
log); `subprocess.run` raises `CalledProcessError` exactly when `check`
holds and the exit code is non-zero, in which case `run_command` prints
the four diagnostic lines and re-raises. -/
def run_command (env : Env) (c : Cmd) (check : Bool := true) : M Int := fun s =>
  let rc := env.rcOf c
  let s := s ++ [Event.cmd c]
  if check && (rc != 0) then
    let s := s ++
      [Event.printE ("Command failed: " ++ joinSpace c),
       Event.printE ("Error: Command returned non-zero exit status " ++ toString rc ++ "."),
       Event.printE ("Output: " ++ env.outOf c),
       Event.printE ("Error output: " ++ env.errOf c)]
    (Except.error ("CalledProcessError: " ++ joinSpace c), s)
  else (Except.ok rc, s)

/-- The `filtered_requirements` list comprehension of
`create_portable_python` (lines 220-224): drops every requirement line
that starts with `"torch"`, `"torchvision"`, `"torchaudio"` or `"#"`. -/
def filtered_requirements (requirements : List String) : List String :=
  requirements.filter fun req => !startswithAny req ["torch", "torchvision", "torchaudio", "#"]

/-- Embedding of `create_portable_python`: downloads and runs the
Miniforge installer, then installs the dependency manifest, with the
Windows command-tolerant substeps and the (dead, see the claims about
it) Apple-Silicon branch reproduced faithfully. -/
def create_portable_python (env : Env) : M Unit := do
  M.printE "Creating portable Python environment..."
  let miniforge_url ← M.ofExcept (get_miniforge_url env.rawSystem env.rawMachine)
  let miniforge_installer := basename miniforge_url
  M.printE ("Downloading Miniforge from " ++ miniforge_url ++ "...")
  M.emit (Event.download miniforge_url miniforge_installer)
  if env.rawSystem ≠ "Windows" then
    M.emit (Event.chmodE miniforge_installer)
  M.printE "Installing Miniforge..."
  if env.rawSystem = "Windows" then do
    let _ ← run_command env [miniforge_installer, "/S", "/D=" ++ abspath env PYTHON_DIR]
    M.printE "Waiting for installation to complete..."
    M.emit (Event.sleepE 10)
  else do
    let _ ← run_command env ["./" ++ miniforge_installer, "-b", "-p", PYTHON_DIR]
  M.emit (Event.removeE miniforge_installer)
  M.printE "Installing required packages..."
  if env.rawSystem = "Windows" then do
    let conda_exe := pjoin (pjoin PYTHON_DIR "Scripts") "conda.exe"
    let pip_exe := pjoin (pjoin PYTHON_DIR "Scripts") "pip.exe"
    M.printE "Initializing conda..."
    M.tryCatchE
      (do let _ ← run_command env [conda_exe, "init", "cmd.exe"] false; M.pure ())
      (fun e => do
        M.printE ("Warning: Could not initialize conda: " ++ e)
        M.printE "Continuing with installation...")
    M.printE "Installing Python 3.10..."
    M.tryCatchE
      (do let _ ← run_command env [conda_exe, "install", "-y", "python=3.10"] false; M.pure ())
      (fun e => do
        M.printE ("Warning: Could not install Python 3.10 with conda: " ++ e)
        M.printE "Continuing with installation...")
    M.printE "Installing requirements with pip..."
    M.tryCatchE
      (do let _ ← run_command env [pip_exe, "install", "-r", "requirements.txt"] false; M.pure ())
      (fun e => do
        M.printE ("Warning: Could not install requirements with pip: " ++ e)
        M.printE "Continuing with installation...")
  else do
    let conda_exe := pjoin (pjoin PYTHON_DIR "bin") "conda"
    let _ ← run_command env [conda_exe, "install", "-y", "python=3.10"]
    let pip_exe := pjoin (pjoin PYTHON_DIR "bin") "pip"
    if env.rawSystem = "darwin" ∧ env.rawMachine = "arm64" then do
      M.printE "Optimizing for Apple Silicon..."
      let _ ← run_command env [conda_exe, "install", "-y", "-c", "conda-forge", "libblas=*=*accelerate"]
      let conda_meta_dir := pjoin PYTHON_DIR "conda-meta"
      M.emit (Event.makedirs conda_meta_dir)
      M.emit (Event.appendF (pjoin conda_meta_dir "pinned") "libblas=*=*accelerate\n")
      let _ ← run_command env [pip_exe, "install", "torch>=2.1.0", "torchvision", "torchaudio"]
      let requirements := env.requirements
      let filtered := filtered_requirements requirements
      if filtered ≠ [] then do
        let _ ← run_command env ([pip_exe, "install"] ++ filtered)
    else do
      let _ ← run_command env [pip_exe, "install", "-r", "requirements.txt"]
  if env.rawSystem ≠ "Windows" then do
    let bin_dir := pjoin PYTHON_DIR "bin"
    M.printE ("Setting executable permissions on files in " ++ bin_dir ++ "...")
    if env.binDirExists then do
      let bin_files := env.binFiles.map (pjoin bin_dir)
      M.forEach bin_files (fun p => M.emit (Event.chmodE p))
      M.printE ("Executable permissions set on " ++ toString bin_files.length ++ " files in " ++ bin_dir)
    else
      M.printE ("Warning: Bin directory " ++ bin_dir ++ " does not exist")
  M.printE "Portable Python environment created successfully."

/-- Embedding of `clone_comfyui`. -/
def clone_comfyui (env : Env) : M Unit := do
  M.printE "Cloning ComfyUI repository..."
  let _ ← run_command env ["git", "clone", COMFYUI_REPO, COMFYUI_DIR]
  M.printE "ComfyUI repository cloned successfully."

/-- The local clone target of one manifest entry: the basename of its
URL with `.git` removed (all occurrences; `str.replace`). -/
def repoName (repo_url : String) : String := pyReplace (basename repo_url) ".git" ""

/-- The clone command issued for one manifest entry. -/
def cloneCmd (repo_url : String) : Cmd :=
  ["git", "clone", repo_url, pjoin CUSTOM_NODES_DIR (repoName repo_url)]

/-- The `for repo in repos` loop of `clone_custom_nodes`: one clone
attempt per manifest entry, in list order. -/
def cloneEach (env : Env) : List String → M Unit
  | [] => M.pure ()
  | repo_url :: rest => do
    M.printE ("Cloning " ++ repo_url ++ "...")
    let _ ← run_command env (cloneCmd repo_url)
    cloneEach env rest

/-- Embedding of `clone_custom_nodes`: clones each manifest URL, in
order, into a directory derived from the URL. -/
def clone_custom_nodes (env : Env) : M Unit := do
  M.printE "Cloning custom node repositories..."
  M.emit (Event.makedirs CUSTOM_NODES_DIR)
  cloneEach env env.repos
  M.printE "Custom node repositories cloned successfully."

/-- Body of the macOS launch script (the triple-quoted literal written
for `system == "darwin"`). -/
def darwinLaunchBody : String :=
  "#!/bin/bash\n"
  ++ "# Launch script for ComfyUI\n"
  ++ "\n"
  ++ "# Get the directory where this script is located\n"
  ++ "SCRIPT_DIR=\"$( cd \"$( dirname \"$\x7bBASH_SOURCE[0]\x7d\" )\" && pwd )\"\n"
  ++ "\n"
  ++ "# Default port\n"
  ++ "PORT=$\x7b1:-8188\x7d\n"
  ++ "\n"
  ++ "# Remove quarantine attribute if present (macOS security feature)\n"
  ++ "if [[ \"$OSTYPE\" == \"darwin\"* ]]; then\n"
  ++ "    # Check if quarantine attribute exists before attempting to remove it\n"
  ++ "    if xattr -l \"$SCRIPT_DIR\" 2>/dev/null | grep -q \"com.apple.quarantine\"; then\n"
  ++ "        echo \"Quarantine attribute detected. Removing quarantine attribute from files...\"\n"
  ++ "        xattr -r -d com.apple.quarantine \"$SCRIPT_DIR\" 2>/dev/null\n"
  ++ "        if [ $? -eq 0 ]; then\n"
  ++ "            echo \"Quarantine attributes removed successfully.\"\n"
  ++ "        else\n"
  ++ "            echo \"Warning: Could not remove quarantine attributes. You may need to run this manually:\"\n"
  ++ "            echo \"xattr -r -d com.apple.quarantine \\\"$SCRIPT_DIR\\\"\"\n"
  ++ "        fi\n"
  ++ "    fi\n"
  ++ "fi\n"
  ++ "\n"
  ++ "# Change to the ComfyUI directory\n"
  ++ "cd \"$SCRIPT_DIR/ComfyUI\"\n"
  ++ "\n"
  ++ "# Launch ComfyUI with the portable Python using exec to preserve PID\n"
  ++ "exec \"$SCRIPT_DIR/python/bin/python\" main.py \\\n"
  ++ "    --enable-cors-header \\\n"
  ++ "    \"*\" \\\n"
  ++ "    --force-fp16 \\\n"
  ++ "    --preview-method=none \\\n"
  ++ "    --port=$PORT\n"

/-- Body of the Linux launch script. -/
def linuxLaunchBody : String :=
  "#!/bin/bash\n"
  ++ "# Launch script for ComfyUI\n"
  ++ "\n"
  ++ "# Get the directory where this script is located\n"
  ++ "SCRIPT_DIR=\"$( cd \"$( dirname \"$\x7bBASH_SOURCE[0]\x7d\" )\" && pwd )\"\n"
  ++ "\n"
  ++ "# Default port\n"
  ++ "PORT=$\x7b1:-8188\x7d\n"
  ++ "\n"
  ++ "# Change to the ComfyUI directory\n"
  ++ "cd \"$SCRIPT_DIR/ComfyUI\"\n"
  ++ "\n"
  ++ "# Launch ComfyUI with the portable Python using exec to preserve PID\n"
  ++ "exec \"$SCRIPT_DIR/python/bin/python\" main.py \\\n"
  ++ "    --enable-cors-header \\\n"
  ++ "    \"*\" \\\n"
  ++ "    --force-fp16 \\\n"
  ++ "    --preview-method=none \\\n"
  ++ "    --port=$PORT\n"

/-- Body of the Windows launch batch file. -/
def windowsLaunchBody : String :=
  "@echo off\n"
  ++ "REM Launch script for ComfyUI\n"
  ++ "\n"
  ++ "REM Get the directory where this script is located\n"
  ++ "set SCRIPT_DIR=%~dp0\n"
  ++ "\n"
  ++ "REM Default port\n"
  ++ "if \"%1\"==\"\" (\n"
  ++ "    set PORT=8188\n"
  ++ ") else (\n"
  ++ "    set PORT=%1\n"
  ++ ")\n"
  ++ "\n"
  ++ "REM Change to the ComfyUI directory\n"
  ++ "cd \"%SCRIPT_DIR%ComfyUI\"\n"
  ++ "\n"
  ++ "REM Launch ComfyUI with the portable Python\n"
  ++ "\"%SCRIPT_DIR%python\\python.exe\" main.py ^\n"
  ++ "    --enable-cors-header ^\n"
  ++ "    \"*\" ^\n"
  ++ "    --force-fp16 ^\n"
  ++ "    --preview-method=none ^\n"
  ++ "    --port=%PORT%\n"

/-- Embedding of `create_launch_script`: writes the per-OS launch
artifact (and marks it executable on Unix-like systems). -/
def create_launch_script (env : Env) : M Unit := do
  M.printE "Creating launch scripts..."
  let system := (get_platform_info env.rawSystem env.rawMachine).1
  if system = "darwin" then do
    let launch_script_path := pjoin ANYMATIX_DIR "anymatix_comfyui"
    M.emit (Event.writeF launch_script_path darwinLaunchBody)
    M.emit (Event.chmodE launch_script_path)
  else if system = "linux" then do
    let launch_script_path := pjoin ANYMATIX_DIR "anymatix_comfyui"
    M.emit (Event.writeF launch_script_path linuxLaunchBody)
    M.emit (Event.chmodE launch_script_path)
  else if system = "windows" then do
    let launch_script_path := pjoin ANYMATIX_DIR "anymatix_comfyui.bat"
    M.emit (Event.writeF launch_script_path windowsLaunchBody)
  M.printE "Launch scripts created successfully."

/-- The archive filename computed by `create_zip_package` from the
version string and platform information. -/
def zipFileName (env : Env) : String :=
  let version := get_version env
  let pi := get_platform_info env.rawSystem env.rawMachine
  "anymatix-portable-comfyui-" ++ pi.1 ++ "-" ++ pi.2 ++ "-v" ++ version ++ ".zip"

/-- The inner `for file in files` loop of the archive walk: adds each
still-existing file, logs and skips each missing one. -/
def zipWalkFiles (env : Env) (zip_filename root : String) : List String → M Unit
  | [] => M.pure ()
  | file :: rest => do
    let file_path := pjoin root file
    let arcname := relpath file_path (dirname ANYMATIX_DIR)
    if env.fileExists file_path then
      M.emit (Event.zipAdd zip_filename file_path arcname)
    else
      M.printE ("Warning: File not found, skipping: " ++ file_path)
    zipWalkFiles env zip_filename root rest

/-- The outer `for root, _, files in os.walk(...)` loop of the archive
walk. -/
def zipWalk (env : Env) (zip_filename : String) : List (String × List String) → M Unit
  | [] => M.pure ()
  | rf :: rest => do
    zipWalkFiles env zip_filename rf.1 rf.2
    zipWalk env zip_filename rest

/-- Embedding of `create_zip_package`: walks the output tree and adds
every still-existing file to the archive, logging and skipping files
that have disappeared. -/
def create_zip_package (env : Env) : M String := do
  M.printE "Creating zip package..."
  let zip_filename := zipFileName env
  zipWalk env zip_filename env.walk
  M.printE ("Zip package created successfully: " ++ zip_filename)
  M.pure zip_filename

/-- Embedding of `push_to_github`. -/
def push_to_github (env : Env) (branch : String) : M Unit := do
  M.printE ("Pushing changes to GitHub branch " ++ branch ++ "...")
  let _ ← run_command env ["git", "add", "."]
  let _ ← run_command env ["git", "commit", "-m", "Update portable ComfyUI package"]
  let _ ← run_command env ["git", "push", "origin", branch]
  M.printE "Changes pushed to GitHub successfully."

/-- Embedding of `trigger_github_workflow`. -/
def trigger_github_workflow (env : Env) (workflow branch : String) : M Unit := do
  M.printE ("Triggering GitHub workflow " ++ workflow ++ " on branch " ++ branch ++ "...")
  let _ ← run_command env ["gh", "workflow", "run", workflow, "--ref", branch]
  M.printE "GitHub workflow triggered successfully."

/-- Embedding of `main`: the full sequential pipeline. -/
def main (env : Env) : M Unit := do
  M.emit (Event.makedirs ANYMATIX_DIR)
  create_portable_python env
  clone_comfyui env
  clone_custom_nodes env
  create_launch_script env
  let zip_filename ← create_zip_package env
  if env.args_ci then
    M.printE ("Using versioned zip file for CI: " ++ zip_filename)
  if env.args_push then
    push_to_github env env.args_branch
  if env.args_trigger then
    trigger_github_workflow env env.args_workflow env.args_branch
  M.printE "Portable ComfyUI package created successfully."

/-- A print event whose text starts with `Warning`. -/
def isWarningPrint : Event → Bool
  | Event.printE s => strHasPre "Warning".data s.data
  | _ => false

/-- The five (system, architecture) pairs for which `get_miniforge_url`
has an installer. -/
def supportedPairs : List (String × String) :=
  [("darwin", "x64"), ("darwin", "arm64"), ("linux", "x64"), ("linux", "arm64"),
   ("windows", "x64")]

/-- A neutral environment used as the base of the concrete test
environments below: every command succeeds silently and all oracles are
empty. -/
def baseEnv : Env where
  rawSystem := ""
  rawMachine := ""
  cwd := ""
  version := ""
  requirements := []
  repos := []
  rcOf := fun _ => 0
  outOf := fun _ => ""
  errOf := fun _ => ""
  binDirExists := false
  binFiles := []
  walk := []
  fileExists := fun _ => true
  args_ci := false
  args_push := false
  args_trigger := false
  args_workflow := "build.yml"
  args_branch := "main"

/-- The conda-init substep command of the Windows dependency install. -/
def condaInitCmdW : Cmd := [pjoin (pjoin PYTHON_DIR "Scripts") "conda.exe", "init", "cmd.exe"]

/-- The python-pin substep command of the Windows dependency install. -/
def condaPyCmdW : Cmd := [pjoin (pjoin PYTHON_DIR "Scripts") "conda.exe", "install", "-y", "python=3.10"]

/-- The pip-requirements substep command of the Windows dependency install. -/
def pipReqCmdW : Cmd := [pjoin (pjoin PYTHON_DIR "Scripts") "pip.exe", "install", "-r", "requirements.txt"]

/-- A Windows x64 host on which the three dependency-install substeps
exit with the given codes and every other command succeeds. -/
def winEnv (r1 r2 r3 : Int) : Env :=
  { baseEnv with
    rawSystem := "Windows"
    rawMachine := "AMD64"
    cwd := "C:/build"
    rcOf := fun c =>
      if c = condaInitCmdW then r1
      else if c = condaPyCmdW then r2
      else if c = pipReqCmdW then r3
      else 0 }

/-- An unsupported host: Linux on a RISC-V machine. -/
def riscvEnv : Env := { baseEnv with rawSystem := "Linux", rawMachine := "riscv64" }

/-- A real Apple-Silicon macOS host (`platform.system()` reports
`"Darwin"`, capitalised), with a requirements manifest containing a
package that merely starts with `torch`. -/
def appleEnv : Env :=
  { baseEnv with
    rawSystem := "Darwin"
    rawMachine := "arm64"
    requirements := ["torchsde", "numpy"] }

/-- The generic pip install command on Unix-like hosts. -/
def pipReqCmdU : Cmd := [pjoin (pjoin PYTHON_DIR "bin") "pip", "install", "-r", "requirements.txt"]

/-- The special-cased Apple-Silicon pip install command (lines 211-213). -/
def torchPipCmd : Cmd :=
  [pjoin (pjoin PYTHON_DIR "bin") "pip", "install", "torch>=2.1.0", "torchvision", "torchaudio"]

/-- The per-entry trace of the plugin-clone loop. -/
def cloneTrace : List String → List Event
  | [] => []
  | u :: us =>
      [Event.printE ("Cloning " ++ u ++ "..."), Event.cmd (cloneCmd u)] ++ cloneTrace us

/-- The trace of the archive walk over the files of one directory. -/
def zipFilesTrace (env : Env) (zipName root : String) : List String → List Event
  | [] => []
  | f :: fs =>
      (if env.fileExists (pjoin root f) then
        [Event.zipAdd zipName (pjoin root f) (relpath (pjoin root f) (dirname ANYMATIX_DIR))]
      else
        [Event.printE ("Warning: File not found, skipping: " ++ pjoin root f)])
      ++ zipFilesTrace env zipName root fs

/-- The trace of the archive walk over the whole output tree. -/
def zipTrace (env : Env) (zipName : String) : List (String × List String) → List Event
  | [] => []
  | rf :: rest => zipFilesTrace env zipName rf.1 rf.2 ++ zipTrace env zipName rest

end CPC

namespace GA

/-! ### Embedding of `github_automation.py` -/

/-- One side effect performed by the workflow-watcher utility. -/
inductive GEvent where
  | cmdE (c : String)
  | printE (s : String)
  | sleepE (n : Nat)
  | mkdirsE (p : String)
  deriving DecidableEq

/-- Outcome of one external command: exit code, stdout, stderr. -/
structure COut where
  rc : Int
  out : String
  err : String

/-- The external world as observed by `github_automation.py`: the
outcome of the n-th command executed, and the JSON decoding
`json.loads(s)["id"]` of the workflow-runs query output. -/
structure GEnv where
  results : Nat → COut
  decodeId : String → Nat

/-- Watcher state: how many commands have run, and the event log. -/
structure GSt where
  calls : Nat
  log : List GEvent
  deriving DecidableEq

/-- The watcher monad: state plus process exit (`sys.exit` carries the
exit code as an `Except.error`). -/
def GM (α : Type) : Type := GSt → Except Nat α × GSt

def GM.pure (a : α) : GM α := fun st => (Except.ok a, st)

def GM.bind (x : GM α) (f : α → GM β) : GM β := fun st =>
  match x st with
  | (Except.ok a, st') => f a st'
  | (Except.error e, st') => (Except.error e, st')

instance : Monad GM where
  pure := GM.pure
  bind := GM.bind

/-- Record a side effect. -/
def GM.emit (e : GEvent) : GM Unit := fun st =>
  (Except.ok (), { st with log := st.log ++ [e] })

/-- Model of Python `print`. -/
def GM.printE (t : String) : GM Unit := GM.emit (GEvent.printE t)

/-- Model of `time.sleep`. -/
def GM.sleep (n : Nat) : GM Unit := GM.emit (GEvent.sleepE n)

/-- Model of `sys.exit`. -/
def GM.exit (code : Nat) : GM α := fun st => (Except.error code, st)

/-- Embedding of the watcher's `run_command`: runs the shell command
(consuming the next oracle outcome), and on a non-zero exit prints the
two diagnostics and terminates the process with exit code 1; otherwise
returns the stripped stdout. -/
def run_command (env : GEnv) (command : String) : GM String := fun st =>
  let r := env.results st.calls
  let st := { calls := st.calls + 1, log := st.log ++ [GEvent.cmdE command] }
  if r.rc != 0 then
    let st := { st with
      log := st.log ++
        [GEvent.printE ("Error running command: " ++ command),
         GEvent.printE ("Error: " ++ r.err)] }
    (Except.error 1, st)
  else (Except.ok (pyStrip r.out), st)

/-- The status-query command polled by `monitor_workflow`. -/
def statusCmd (run_id : Nat) : String :=
  "gh run view " ++ toString run_id ++ " --json status --jq \x27.status\x27"

/-- The conclusion-query command issued once a terminal status is seen. -/
def conclusionCmd (run_id : Nat) : String :=
  "gh run view " ++ toString run_id ++ " --json conclusion --jq \x27.conclusion\x27"

/-- The artifact-download command of `download_artifacts`. -/
def downloadCmd (run_id : Nat) (output_dir : String) : String :=
  "gh run download " ++ toString run_id ++ " --dir " ++ output_dir

/-- Embedding of `trigger_workflow`: triggers the workflow, sleeps, and
reads back the id of the newest run. -/
def trigger_workflow (env : GEnv) (workflow branch : String) : GM Nat := do
  GM.printE ("Triggering workflow " ++ workflow ++ " on branch " ++ branch ++ "...")
  let _ ← run_command env ("gh workflow run " ++ workflow ++ " --ref " ++ branch)
  GM.sleep 2
  let out ← run_command env
    ("gh api repos/\x7bowner\x7d/\x7brepo\x7d/actions/workflows/" ++ workflow
      ++ "/runs --jq \x27.workflow_runs[0]\x27")
  let run_id := env.decodeId out
  GM.printE ("Workflow run ID: " ++ toString run_id)
  GM.pure run_id

/-- The polling loop of `monitor_workflow` (`while True`), indexed by
fuel bounding the number of iterations unfolded; `none` means the fuel
ran out while the status was still non-terminal (the real loop keeps
polling with no timeout). -/
def monitor_loop (env : GEnv) (run_id : Nat) : Nat → GM (Option Bool)
  | 0 => GM.pure none
  | fuel + 1 => do
    let status ← run_command env (statusCmd run_id)
    GM.printE ("Workflow status: " ++ status)
    if status ∈ (["completed", "cancelled", "failure"] : List String) then do
      let conclusion ← run_command env (conclusionCmd run_id)
      GM.printE ("Workflow conclusion: " ++ conclusion)
      GM.pure (some (conclusion == "success"))
    else do
      GM.sleep 30
      monitor_loop env run_id fuel

/-- Embedding of `monitor_workflow`. -/
def monitor_workflow (env : GEnv) (run_id : Nat) (fuel : Nat) : GM (Option Bool) := do
  GM.printE ("Monitoring workflow run " ++ toString run_id ++ "...")
  monitor_loop env run_id fuel

/-- Embedding of `download_artifacts`. -/
def download_artifacts (env : GEnv) (run_id : Nat) (output_dir : String) : GM Unit := do
  GM.printE ("Downloading artifacts from workflow run " ++ toString run_id ++ "...")
  GM.emit (GEvent.mkdirsE output_dir)
  let _ ← run_command env (downloadCmd run_id output_dir)
  GM.printE ("Artifacts downloaded to " ++ output_dir)

/-- Embedding of the watcher's `main` (with the default CLI arguments
made explicit parameters); `some ()` is a normal exit, `Except.error 1`
is `sys.exit(1)`, and `none` means the polling fuel ran out. -/
def ga_main (env : GEnv) (workflow branch output_dir : String) (fuel : Nat) :
    GM (Option Unit) := do
  let run_id ← trigger_workflow env workflow branch
  let success? ← monitor_workflow env run_id fuel
  match success? with
  | none => GM.pure none
  | some success =>
    if success then do
      download_artifacts env run_id output_dir
      GM.printE "Workflow completed successfully!"
      GM.pure (some ())
    else do
      GM.printE "Workflow failed!"
      GM.exit 1

/-- Whether an event is an artifact-download command. -/
def isDownloadCmd : GEvent → Bool
  | GEvent.cmdE c => strHasPre "gh run download".data c.data
  | _ => false

/-- A watcher world in which the run immediately reports the given
terminal status and conclusion, and every command succeeds: call 0 is
the trigger, call 1 the runs query, call 2 the status query, call 3 the
conclusion query, call 4 the download. -/
def gaEnv (status conclusion : String) : GEnv where
  results := fun n =>
    if n = 2 then { rc := 0, out := status, err := "" }
    else if n = 3 then { rc := 0, out := conclusion, err := "" }
    else { rc := 0, out := "", err := "" }
  decodeId := fun _ => 42

/-- A watcher world in which every status query reports `in_progress`
and every command succeeds. -/
def gaPollEnv : GEnv where
  results := fun _ => { rc := 0, out := "in_progress", err := "" }
  decodeId := fun _ => 42

/-- A watcher world in which every command fails with exit code 7. -/
def gaFailCmdEnv : GEnv where
  results := fun _ => { rc := 7, out := "", err := "boom" }
  decodeId := fun _ => 42

/-- The trace of one non-terminal polling iteration: the status query,
the status print, and the fixed 30-unit sleep. -/
def pollBlock (env : GEnv) (run_id call : Nat) : List GEvent :=
  [GEvent.cmdE (statusCmd run_id),
   GEvent.printE ("Workflow status: " ++ pyStrip (env.results call).out),
   GEvent.sleepE 30]

/-- The trace of `n` consecutive non-terminal polling iterations
starting at call index `call`. -/
def pollTrace (env : GEnv) (run_id : Nat) : Nat → Nat → List GEvent
  | _, 0 => []
  | call, n + 1 => pollBlock env run_id call ++ pollTrace env run_id (call + 1) n

end GA

/-! ## Theorems -/

namespace CPC

theorem run_bind (x : M α) (f : α → M β) (s : List Event) :
    (x >>= f) s = match x s with
      | (Except.ok a, s') => f a s'
      | (Except.error e, s') => (Except.error e, s') := rfl

theorem run_pure (a : α) (s : List Event) : (pure a : M α) s = (Except.ok a, s) := rfl

theorem run_mpure (a : α) (s : List Event) : (M.pure a : M α) s = (Except.ok a, s) := rfl

theorem run_emit (e : Event) (s : List Event) : M.emit e s = (Except.ok (), s ++ [e]) := rfl

theorem run_printE (t : String) (s : List Event) :
    M.printE t s = (Except.ok (), s ++ [Event.printE t]) := rfl

theorem run_ofExcept_error (m : String) (s : List Event) :
    (M.ofExcept (Except.error m) : M α) s = (Except.error m, s) := rfl

theorem run_command_ok (env : Env) (c : Cmd) (h : env.rcOf c = 0) (s : List Event) :
    run_command env c true s = (Except.ok 0, s ++ [Event.cmd c]) := by
  simp [run_command, h]

theorem run_zipWalkFiles (env : Env) (zipName root : String) (fs : List String)
    (s : List Event) :
    zipWalkFiles env zipName root fs s =
      (Except.ok (), s ++ zipFilesTrace env zipName root fs) := by
  induction fs generalizing s with
  | nil => simp [zipWalkFiles, zipFilesTrace, run_mpure]
  | cons f fs ih =>
    by_cases h : env.fileExists (pjoin root f) = true
    · simp [zipWalkFiles, zipFilesTrace, run_bind, run_emit, run_printE, h, ih]
    · simp only [Bool.not_eq_true] at h
      simp [zipWalkFiles, zipFilesTrace, run_bind, run_emit, run_printE, h, ih]

theorem run_zipWalk (env : Env) (zipName : String) (w : List (String × List String))
    (s : List Event) :
    zipWalk env zipName w s = (Except.ok (), s ++ zipTrace env zipName w) := by
  induction w generalizing s with
  | nil => simp [zipWalk, zipTrace, run_mpure]
  | cons rf rest ih =>
    simp [zipWalk, zipTrace, run_bind, run_zipWalkFiles, ih]

theorem run_create_zip_package (env : Env) (s : List Event) :
    create_zip_package env s =
      (Except.ok (zipFileName env),
       s ++ [Event.printE "Creating zip package..."]
         ++ zipTrace env (zipFileName env) env.walk
         ++ [Event.printE ("Zip package created successfully: " ++ zipFileName env)]) := by
  simp [create_zip_package, run_bind, run_printE, run_mpure, run_zipWalk]

/-- C6: architecture normalization is idempotent, total over the
declared synonym set (every synonym resolves to a canonical token), and
collapses the two 64-bit x86 spellings to `x64` and the two 64-bit ARM
spellings to `arm64`. -/
theorem arch_normalization_idempotent_total :
    (∀ m : String, normalizeArch (normalizeArch m) = normalizeArch m) ∧
    (∀ m ∈ ["x86_64", "amd64", "i386", "i686", "arm64", "aarch64"],
        normalizeArch m ∈ ["x64", "x86", "arm64"]) ∧
    normalizeArch "x86_64" = "x64" ∧ normalizeArch "amd64" = "x64" ∧
    normalizeArch "arm64" = "arm64" ∧ normalizeArch "aarch64" = "arm64" := by
  refine ⟨?_, by decide⟩
  intro m
  by_cases h1 : m = "x86_64"
  · subst h1; decide
  by_cases h2 : m = "amd64"
  · subst h2; decide
  by_cases h3 : m = "i386"
  · subst h3; decide
  by_cases h4 : m = "i686"
  · subst h4; decide
  by_cases h5 : m = "arm64"
  · subst h5; decide
  by_cases h6 : m = "aarch64"
  · subst h6; decide
  have hm : normalizeArch m = m := by
    simp [normalizeArch, h1, h2, h3, h4, h5, h6]
  rw [hm, hm]

/-- Witness for C6 at the concrete synonym `amd64`. -/
theorem arch_normalization_idempotent_total_witness :
    normalizeArch (normalizeArch "amd64") = normalizeArch "amd64" ∧
    normalizeArch "amd64" ∈ ["x64", "x86", "arm64"] :=
  ⟨arch_normalization_idempotent_total.1 "amd64",
   arch_normalization_idempotent_total.2.1 "amd64" (by decide)⟩

theorem mem_zipFilesTrace_add (env : Env) (zipName root : String) (fs : List String)
    (file : String) (hf : file ∈ fs) (hex : env.fileExists (pjoin root file) = true) :
    Event.zipAdd zipName (pjoin root file)
      (relpath (pjoin root file) (dirname ANYMATIX_DIR)) ∈ zipFilesTrace env zipName root fs := by
  induction fs with
  | nil => cases hf
  | cons g gs ih =>
    rcases List.mem_cons.mp hf with h | h
    · subst h; simp [zipFilesTrace, hex]
    · by_cases hg : env.fileExists (pjoin root g) = true <;>
        simp [zipFilesTrace, hg, ih h]

theorem mem_zipFilesTrace_warn (env : Env) (zipName root : String) (fs : List String)
    (file : String) (hf : file ∈ fs) (hex : env.fileExists (pjoin root file) = false) :
    Event.printE ("Warning: File not found, skipping: " ++ pjoin root file)
      ∈ zipFilesTrace env zipName root fs := by
  induction fs with
  | nil => cases hf
  | cons g gs ih =>
    rcases List.mem_cons.mp hf with h | h
    · subst h; simp [zipFilesTrace, hex]
    · by_cases hg : env.fileExists (pjoin root g) = true <;>
        simp [zipFilesTrace, hg, ih h]

theorem mem_zipTrace (env : Env) (zipName : String) (w : List (String × List String))
    (root : String) (files : List String) (hw : (root, files) ∈ w) (e : Event)
    (he : e ∈ zipFilesTrace env zipName root files) : e ∈ zipTrace env zipName w := by
  induction w with
  | nil => cases hw
  | cons rf rest ih =>
    rcases List.mem_cons.mp hw with h | h
    · rw [← h] at *
      exact List.mem_append.mpr (Or.inl he)
    · exact List.mem_append.mpr (Or.inr (ih h))

/-- C7: the archive step never aborts (it returns the archive name for
every environment, whatever `fileExists` says), every discoverable file
that still exists gets a corresponding archive entry, and every file
that has disappeared mid-walk is logged with a warning and skipped. -/
theorem zip_missing_file_skipped (env : Env) (s : List Event) :
    (create_zip_package env s).1 = Except.ok (zipFileName env) ∧
    (∀ root files file, (root, files) ∈ env.walk → file ∈ files →
      (env.fileExists (pjoin root file) = true →
        Event.zipAdd (zipFileName env) (pjoin root file)
          (relpath (pjoin root file) (dirname ANYMATIX_DIR))
          ∈ (create_zip_package env s).2) ∧
      (env.fileExists (pjoin root file) = false →
        Event.printE ("Warning: File not found, skipping: " ++ pjoin root file)
          ∈ (create_zip_package env s).2)) := by
  rw [run_create_zip_package]
  refine ⟨rfl, ?_⟩
  intro root files file hw hf
  constructor
  · intro hex
    have := mem_zipTrace env (zipFileName env) env.walk root files hw _
      (mem_zipFilesTrace_add env (zipFileName env) root files file hf hex)
    simp only [List.mem_append]
    exact Or.inl (Or.inr this)
  · intro hex
    have := mem_zipTrace env (zipFileName env) env.walk root files hw _
      (mem_zipFilesTrace_warn env (zipFileName env) root files file hf hex)
    simp only [List.mem_append]
    exact Or.inl (Or.inr this)

/-- Witness for C7 at a concrete environment: a two-file walk in which
one file has disappeared; the surviving file is archived and the missing
one is logged. -/
theorem zip_missing_file_skipped_witness :
    (create_zip_package
        { baseEnv with
          walk := [("anymatix", ["kept.txt", "gone.txt"])]
          fileExists := fun p => p != "anymatix/gone.txt" } []).1 =
      Except.ok (zipFileName
        { baseEnv with
          walk := [("anymatix", ["kept.txt", "gone.txt"])]
          fileExists := fun p => p != "anymatix/gone.txt" }) ∧
    Event.zipAdd (zipFileName
        { baseEnv with
          walk := [("anymatix", ["kept.txt", "gone.txt"])]
          fileExists := fun p => p != "anymatix/gone.txt" })
        (pjoin "anymatix" "kept.txt")
        (relpath (pjoin "anymatix" "kept.txt") (dirname ANYMATIX_DIR))
      ∈ (create_zip_package
        { baseEnv with
          walk := [("anymatix", ["kept.txt", "gone.txt"])]
          fileExists := fun p => p != "anymatix/gone.txt" } []).2 ∧
    Event.printE ("Warning: File not found, skipping: " ++ pjoin "anymatix" "gone.txt")
      ∈ (create_zip_package
        { baseEnv with
          walk := [("anymatix", ["kept.txt", "gone.txt"])]
          fileExists := fun p => p != "anymatix/gone.txt" } []).2 := by
  refine ⟨(zip_missing_file_skipped _ []).1, ?_, ?_⟩
  · exact ((zip_missing_file_skipped _ []).2 "anymatix" ["kept.txt", "gone.txt"] "kept.txt"
      (by decide) (by decide)).1 (by decide)
  · exact ((zip_missing_file_skipped _ []).2 "anymatix" ["kept.txt", "gone.txt"] "gone.txt"
      (by decide) (by decide)).2 (by decide)

/-- C8: the archive filename is a function of exactly the OS name, the
machine-architecture name and the version string — equal inputs give the
identical filename — and on a Linux x86_64 host with version `1.2.3`
the name is `anymatix-portable-comfyui-linux-x64-v1.2.3.zip`. -/
theorem zip_name_deterministic :
    (∀ env₁ env₂ : Env, ∀ s₁ s₂ : List Event,
        env₁.rawSystem = env₂.rawSystem → env₁.rawMachine = env₂.rawMachine →
        env₁.version = env₂.version →
        (create_zip_package env₁ s₁).1 = (create_zip_package env₂ s₂).1) ∧
    (∀ env : Env, ∀ s : List Event,
        env.rawSystem = "Linux" → env.rawMachine = "x86_64" → env.version = "1.2.3" →
        (create_zip_package env s).1 =
          Except.ok "anymatix-portable-comfyui-linux-x64-v1.2.3.zip") := by
  constructor
  · intro e1 e2 s1 s2 hs hm hv
    rw [run_create_zip_package, run_create_zip_package]
    simp [zipFileName, get_version, get_platform_info, hs, hm, hv]
  · intro env s hs hm hv
    rw [run_create_zip_package]
    simp only [zipFileName, get_version, get_platform_info, hs, hm, hv]
    exact congrArg Except.ok (by decide)

/-- Witness for C8 at two concrete environments that agree on the three
inputs but differ elsewhere. -/
theorem zip_name_deterministic_witness :
    (create_zip_package
        { baseEnv with rawSystem := "Linux", rawMachine := "x86_64", version := "1.2.3" } []).1 =
      (create_zip_package
        { baseEnv with
          rawSystem := "Linux"
          rawMachine := "x86_64"
          version := "1.2.3"
          walk := [("anymatix", ["f"])] } []).1 ∧
    (create_zip_package
        { baseEnv with rawSystem := "Linux", rawMachine := "x86_64", version := "1.2.3" } []).1 =
      Except.ok "anymatix-portable-comfyui-linux-x64-v1.2.3.zip" :=
  ⟨zip_name_deterministic.1 _ _ [] [] rfl rfl rfl,
   zip_name_deterministic.2 _ [] rfl rfl rfl⟩

theorem run_cloneEach (env : Env) (urls : List String)
    (h : ∀ u ∈ urls, env.rcOf (cloneCmd u) = 0) (s : List Event) :
    cloneEach env urls s = (Except.ok (), s ++ cloneTrace urls) := by
  induction urls generalizing s with
  | nil => simp [cloneEach, cloneTrace, run_mpure]
  | cons u us ih =>
    have hu : env.rcOf (cloneCmd u) = 0 := h u (List.mem_cons_self u us)
    have ihs := ih (fun v hv => h v (List.mem_cons_of_mem u hv))
    simp [cloneEach, cloneTrace, run_bind, run_printE, run_command_ok env (cloneCmd u) hu, ihs]

theorem cloneTrace_cmds (urls : List String) :
    (cloneTrace urls).filterMap (fun e => match e with
        | Event.cmd c => some c
        | _ => none) = urls.map cloneCmd := by
  induction urls with
  | nil => simp [cloneTrace]
  | cons u us ih => simp [cloneTrace, ih]

/-- C3 (amended): given a manifest in which every clone succeeds, the
plugin-clone step issues exactly one clone command per manifest entry,
in manifest order, and each entry's local directory name is the final
path segment of its URL with every occurrence of `.git` removed (for a
URL ending in `.git` this is ordinary suffix stripping). -/
theorem clone_nodes_order_and_naming (env : Env) (s : List Event)
    (h : ∀ u ∈ env.repos, env.rcOf (cloneCmd u) = 0) :
    clone_custom_nodes env s =
      (Except.ok (),
       s ++ [Event.printE "Cloning custom node repositories...",
             Event.makedirs CUSTOM_NODES_DIR]
         ++ cloneTrace env.repos
         ++ [Event.printE "Custom node repositories cloned successfully."]) ∧
    (cloneTrace env.repos).filterMap (fun e => match e with
        | Event.cmd c => some c
        | _ => none) = env.repos.map cloneCmd ∧
    (∀ u : String, cloneCmd u =
      ["git", "clone", u, pjoin CUSTOM_NODES_DIR (pyReplace (basename u) ".git" "")]) := by
  refine ⟨?_, cloneTrace_cmds env.repos, fun u => rfl⟩
  simp [clone_custom_nodes, run_bind, run_printE, run_emit, run_cloneEach env env.repos h]

/-- Witness for C3 at a concrete two-entry manifest. -/
theorem clone_nodes_order_and_naming_witness :
    clone_custom_nodes
        { baseEnv with repos := ["https://host/org/repo.git", "https://host/org/other"] } [] =
      (Except.ok (),
       [Event.printE "Cloning custom node repositories...",
        Event.makedirs CUSTOM_NODES_DIR]
         ++ cloneTrace ["https://host/org/repo.git", "https://host/org/other"]
         ++ [Event.printE "Custom node repositories cloned successfully."]) :=
  (clone_nodes_order_and_naming
      { baseEnv with repos := ["https://host/org/repo.git", "https://host/org/other"] } []
      (by decide)).1

/-- C3 counterexample: for the manifest entry
`https://host/org/my.github.io` (whose final path segment does not end
in `.git`), the code clones into directory `myhub.io` — `str.replace`
removes the interior occurrence of `.git` — whereas the claim says a
name without the trailing suffix is left unchanged. -/
theorem clone_naming_counterexample :
    (clone_custom_nodes { baseEnv with repos := ["https://host/org/my.github.io"] } []).2 =
      [Event.printE "Cloning custom node repositories...",
       Event.makedirs CUSTOM_NODES_DIR,
       Event.printE "Cloning https://host/org/my.github.io...",
       Event.cmd ["git", "clone", "https://host/org/my.github.io",
         "anymatix/ComfyUI/custom_nodes/myhub.io"],
       Event.printE "Custom node repositories cloned successfully."] ∧
    Event.cmd ["git", "clone", "https://host/org/my.github.io",
        "anymatix/ComfyUI/custom_nodes/my.github.io"]
      ∉ (clone_custom_nodes { baseEnv with repos := ["https://host/org/my.github.io"] } []).2 := by
  decide

theorem miniforge_url_error_iff (rawS rawM : String) :
    (∃ m, get_miniforge_url rawS rawM = Except.error m) ↔
      get_platform_info rawS rawM ∉ supportedPairs := by
  rcases hp : get_platform_info rawS rawM with ⟨sys, mach⟩
  simp only [get_miniforge_url, hp]
  split_ifs <;> simp_all [supportedPairs, Prod.mk.injEq]

theorem cpp_unsupported (env : Env) (m : String)
    (h : get_miniforge_url env.rawSystem env.rawMachine = Except.error m) (s : List Event) :
    create_portable_python env s =
      (Except.error m, s ++ [Event.printE "Creating portable Python environment..."]) := by
  simp [create_portable_python, run_bind, run_printE, h, run_ofExcept_error]

theorem main_unsupported (env : Env) (m : String)
    (h : get_miniforge_url env.rawSystem env.rawMachine = Except.error m) (s : List Event) :
    main env s =
      (Except.error m,
       s ++ [Event.makedirs ANYMATIX_DIR,
             Event.printE "Creating portable Python environment..."]) := by
  simp [main, run_bind, run_emit, cpp_unsupported env m h]

/-- C1 (amended): installer-URL resolution fails with the designated
`Unsupported platform` error exactly on the (OS, architecture) pairs
outside the supported set — it never returns a guessed URL — and when
the pipeline runs on such a platform the error is raised before any
external command, download or file write; the only side effect that
precedes it is the creation of the root output directory `anymatix`
(plus a progress print). -/
theorem unsupported_platform_fatal :
    (∀ rawS rawM : String,
        (∃ m, get_miniforge_url rawS rawM = Except.error m) ↔
          get_platform_info rawS rawM ∉ supportedPairs) ∧
    (∀ (env : Env) (m : String),
        get_miniforge_url env.rawSystem env.rawMachine = Except.error m →
        ∀ s, main env s =
          (Except.error m,
           s ++ [Event.makedirs ANYMATIX_DIR,
                 Event.printE "Creating portable Python environment..."])) :=
  ⟨miniforge_url_error_iff, fun env m h s => main_unsupported env m h s⟩

/-- Witness for C1 at the concrete unsupported pair (Linux, riscv64). -/
theorem unsupported_platform_fatal_witness :
    (∃ m, get_miniforge_url "Linux" "riscv64" = Except.error m) ∧
    main riscvEnv [] =
      (Except.error "Unsupported platform: linux riscv64",
       [Event.makedirs ANYMATIX_DIR,
        Event.printE "Creating portable Python environment..."]) :=
  ⟨(unsupported_platform_fatal.1 "Linux" "riscv64").mpr (by decide),
   unsupported_platform_fatal.2 riscvEnv "Unsupported platform: linux riscv64" rfl []⟩

/-- C1 counterexample: on the unsupported (Linux, riscv64) host the
pipeline's event log at the moment the unsupported-platform error is
raised already contains the creation of the `anymatix` directory, so the
error is not raised before every side effect as the claim states. -/
theorem unsupported_platform_side_effect_counterexample :
    main riscvEnv [] =
      (Except.error "Unsupported platform: linux riscv64",
       [Event.makedirs "anymatix",
        Event.printE "Creating portable Python environment..."]) ∧
    Event.makedirs "anymatix" ∈ (main riscvEnv []).2 :=
  ⟨rfl, by decide⟩

theorem run_command_fail_aborts (env : Env) (c : Cmd) (h : env.rcOf c ≠ 0)
    (α : Type) (k : Int → M α) (s : List Event) :
    (run_command env c true >>= k) s =
      (Except.error ("CalledProcessError: " ++ joinSpace c),
       s ++ [Event.cmd c,
             Event.printE ("Command failed: " ++ joinSpace c),
             Event.printE ("Error: Command returned non-zero exit status "
               ++ toString (env.rcOf c) ++ "."),
             Event.printE ("Output: " ++ env.outOf c),
             Event.printE ("Error output: " ++ env.errOf c)]) := by
  have hb : (env.rcOf c != 0) = true := by simpa using h
  simp [run_bind, run_command, hb]

/-- C2 (amended): a non-zero exit of any strictly-checked external
command raises immediately and discards the whole continuation of the
pipeline (no later step runs, no retry); the three Windows
dependency-installation substeps are run unchecked, so the pipeline's
behaviour — result and full event log — is identical whatever their exit
codes: it continues with the next substep, completes, and prints no
warning for a non-zero exit (the warning path only fires when invoking a
command raises an exception rather than returning a code). -/
theorem command_failure_aborts_except_windows_substeps :
    (∀ (env : Env) (c : Cmd), env.rcOf c ≠ 0 →
      ∀ (α : Type) (k : Int → M α) (s : List Event),
        (run_command env c true >>= k) s =
          (Except.error ("CalledProcessError: " ++ joinSpace c),
           s ++ [Event.cmd c,
                 Event.printE ("Command failed: " ++ joinSpace c),
                 Event.printE ("Error: Command returned non-zero exit status "
                   ++ toString (env.rcOf c) ++ "."),
                 Event.printE ("Output: " ++ env.outOf c),
                 Event.printE ("Error output: " ++ env.errOf c)])) ∧
    (∀ r1 r2 r3 : Int,
      create_portable_python (winEnv r1 r2 r3) [] =
        create_portable_python (winEnv 0 0 0) []) ∧
    (create_portable_python (winEnv 0 0 0) []).1 = Except.ok () ∧
    Event.cmd condaInitCmdW ∈ (create_portable_python (winEnv 0 0 0) []).2 ∧
    Event.cmd condaPyCmdW ∈ (create_portable_python (winEnv 0 0 0) []).2 ∧
    Event.cmd pipReqCmdW ∈ (create_portable_python (winEnv 0 0 0) []).2 ∧
    (create_portable_python (winEnv 0 0 0) []).2.all (fun e => !isWarningPrint e) = true := by
  refine ⟨fun env c h α k s => run_command_fail_aborts env c h α k s,
    fun r1 r2 r3 => rfl, rfl, ?_⟩
  decide

/-- Witness for C2: a failing checked command aborts with the explicit
diagnostic trace, and the Windows substeps behave identically with all
three substeps failing as with all three succeeding. -/
theorem command_failure_aborts_except_windows_substeps_witness :
    (run_command { baseEnv with rcOf := fun _ => 1 } ["git", "clone"] true >>=
        fun _ => M.printE "next step") [] =
      (Except.error "CalledProcessError: git clone",
       [Event.cmd ["git", "clone"],
        Event.printE "Command failed: git clone",
        Event.printE "Error: Command returned non-zero exit status 1.",
        Event.printE "Output: ",
        Event.printE "Error output: "]) ∧
    create_portable_python (winEnv 1 1 1) [] = create_portable_python (winEnv 0 0 0) [] :=
  ⟨command_failure_aborts_except_windows_substeps.1
      { baseEnv with rcOf := fun _ => 1 } ["git", "clone"] (by decide) Unit
      (fun _ => M.printE "next step") [],
   command_failure_aborts_except_windows_substeps.2.1 1 1 1⟩

/-- C2 counterexample: on a Windows host where the conda-init substep
exits with code 1, the pipeline continues (the two later substeps still
run and the step completes successfully) but the event log contains no
warning print at all — the claimed downgrade to a printed warning does
not happen for a non-zero exit. -/
theorem windows_substep_failure_silent_counterexample :
    (create_portable_python (winEnv 1 0 0) []).1 = Except.ok () ∧
    Event.cmd condaPyCmdW ∈ (create_portable_python (winEnv 1 0 0) []).2 ∧
    Event.cmd pipReqCmdW ∈ (create_portable_python (winEnv 1 0 0) []).2 ∧
    (create_portable_python (winEnv 1 0 0) []).2.all (fun e => !isWarningPrint e) = true := by
  refine ⟨rfl, ?_⟩
  decide

/-- C4: evaluation of the code at the failing input. On a real
Apple-Silicon macOS host — where `platform.system()` reports `"Darwin"`,
capitalised, while line 190 compares it against the lowercase
`"darwin"` — the special-case branch never runs: no
`pip install torch>=2.1.0 torchvision torchaudio` command is issued, no
Apple-Silicon optimization happens, and the generic
`pip install -r requirements.txt` runs instead.  Moreover, even the
branch's own filter is prefix-based: it drops the unrelated manifest
entry `torchsde`, contradicting the claim that exactly the three named
entries are filtered out. -/
theorem apple_silicon_branch_dead :
    (create_portable_python appleEnv []).1 = Except.ok () ∧
    Event.cmd pipReqCmdU ∈ (create_portable_python appleEnv []).2 ∧
    Event.cmd torchPipCmd ∉ (create_portable_python appleEnv []).2 ∧
    Event.printE "Optimizing for Apple Silicon..." ∉ (create_portable_python appleEnv []).2 ∧
    filtered_requirements ["torchsde", "numpy"] = ["numpy"] := by
  refine ⟨rfl, ?_⟩
  decide

/-- C9: on each of the three supported host OS families the launch-step
writes exactly one launch artifact at its deterministic per-OS path (a
shell script `anymatix/anymatix_comfyui` for darwin and linux, marked
executable; a batch file `anymatix/anymatix_comfyui.bat` for windows),
whose body defaults the optional port argument to 8188, changes into the
ComfyUI directory and invokes `main.py` through the bundled interpreter
with the fixed flags (permissive CORS, forced fp16, preview disabled,
the resolved port); only the darwin body carries the quarantine
detection and removal logic. -/
theorem launch_script_generation :
    create_launch_script { baseEnv with rawSystem := "Darwin" } [] =
      (Except.ok (),
       [Event.printE "Creating launch scripts...",
        Event.writeF (pjoin ANYMATIX_DIR "anymatix_comfyui") darwinLaunchBody,
        Event.chmodE (pjoin ANYMATIX_DIR "anymatix_comfyui"),
        Event.printE "Launch scripts created successfully."]) ∧
    create_launch_script { baseEnv with rawSystem := "Linux" } [] =
      (Except.ok (),
       [Event.printE "Creating launch scripts...",
        Event.writeF (pjoin ANYMATIX_DIR "anymatix_comfyui") linuxLaunchBody,
        Event.chmodE (pjoin ANYMATIX_DIR "anymatix_comfyui"),
        Event.printE "Launch scripts created successfully."]) ∧
    create_launch_script { baseEnv with rawSystem := "Windows" } [] =
      (Except.ok (),
       [Event.printE "Creating launch scripts...",
        Event.writeF (pjoin ANYMATIX_DIR "anymatix_comfyui.bat") windowsLaunchBody,
        Event.printE "Launch scripts created successfully."]) ∧
    containsStr darwinLaunchBody "PORT=$\x7b1:-8188\x7d" = true ∧
    containsStr linuxLaunchBody "PORT=$\x7b1:-8188\x7d" = true ∧
    containsStr windowsLaunchBody "set PORT=8188" = true ∧
    containsStr darwinLaunchBody "cd \"$SCRIPT_DIR/ComfyUI\"" = true ∧
    containsStr linuxLaunchBody "cd \"$SCRIPT_DIR/ComfyUI\"" = true ∧
    containsStr windowsLaunchBody "cd \"%SCRIPT_DIR%ComfyUI\"" = true ∧
    containsStr darwinLaunchBody "\"$SCRIPT_DIR/python/bin/python\" main.py" = true ∧
    containsStr linuxLaunchBody "\"$SCRIPT_DIR/python/bin/python\" main.py" = true ∧
    containsStr windowsLaunchBody "\"%SCRIPT_DIR%python\\python.exe\" main.py" = true ∧
    containsStr darwinLaunchBody "--enable-cors-header" = true ∧
    containsStr darwinLaunchBody "--force-fp16" = true ∧
    containsStr darwinLaunchBody "--preview-method=none" = true ∧
    containsStr darwinLaunchBody "--port=$PORT" = true ∧
    containsStr linuxLaunchBody "--enable-cors-header" = true ∧
    containsStr linuxLaunchBody "--force-fp16" = true ∧
    containsStr linuxLaunchBody "--preview-method=none" = true ∧
    containsStr linuxLaunchBody "--port=$PORT" = true ∧
    containsStr windowsLaunchBody "--enable-cors-header" = true ∧
    containsStr windowsLaunchBody "--force-fp16" = true ∧
    containsStr windowsLaunchBody "--preview-method=none" = true ∧
    containsStr windowsLaunchBody "--port=%PORT%" = true ∧
    containsStr darwinLaunchBody "com.apple.quarantine" = true ∧
    containsStr linuxLaunchBody "com.apple.quarantine" = false ∧
    containsStr windowsLaunchBody "com.apple.quarantine" = false := by
  refine ⟨rfl, rfl, rfl, ?_⟩
  decide

end CPC

namespace GA

theorem g_run_bind (x : GM α) (f : α → GM β) (st : GSt) :
    (x >>= f) st = match x st with
      | (Except.ok a, st') => f a st'
      | (Except.error e, st') => (Except.error e, st') := rfl

theorem g_run_pure (a : α) (st : GSt) : (GM.pure a : GM α) st = (Except.ok a, st) := rfl

theorem g_run_command_ok (env : GEnv) (c : String) (st : GSt)
    (h : (env.results st.calls).rc = 0) :
    run_command env c st =
      (Except.ok (pyStrip (env.results st.calls).out),
       { calls := st.calls + 1, log := st.log ++ [GEvent.cmdE c] }) := by
  simp [run_command, h]

theorem g_run_command_fail (env : GEnv) (c : String) (st : GSt)
    (h : (env.results st.calls).rc ≠ 0) :
    run_command env c st =
      (Except.error 1,
       { calls := st.calls + 1,
         log := st.log ++ [GEvent.cmdE c,
           GEvent.printE ("Error running command: " ++ c),
           GEvent.printE ("Error: " ++ (env.results st.calls).err)] }) := by
  have hb : ((env.results st.calls).rc != 0) = true := by simpa using h
  simp [run_command, hb]

theorem monitor_polls (env : GEnv) (run_id : Nat) :
    ∀ (n : Nat) (st : GSt),
      (∀ i < n, (env.results (st.calls + i)).rc = 0 ∧
        pyStrip (env.results (st.calls + i)).out ∉
          (["completed", "cancelled", "failure"] : List String)) →
      monitor_loop env run_id n st =
        (Except.ok none,
         GSt.mk (st.calls + n) (st.log ++ pollTrace env run_id st.calls n)) := by
  intro n
  induction n with
  | zero => intro st _; simp [monitor_loop, g_run_pure, pollTrace]
  | succ n ih =>
    intro st h
    have h0 := h 0 (Nat.succ_pos n)
    rw [Nat.add_zero] at h0
    have hshift : ∀ i < n, (env.results (st.calls + 1 + i)).rc = 0 ∧
        pyStrip (env.results (st.calls + 1 + i)).out ∉
          (["completed", "cancelled", "failure"] : List String) := by
      intro i hi
      have hc : st.calls + 1 + i = st.calls + (i + 1) := by omega
      rw [hc]
      exact h (i + 1) (Nat.succ_lt_succ hi)
    have hrec := ih (GSt.mk (st.calls + 1) (st.log ++ pollBlock env run_id st.calls)) hshift
    simp only [monitor_loop, g_run_bind, g_run_command_ok env _ st h0.1, GM.printE, GM.emit,
      GM.sleep]
    rw [if_neg h0.2]
    simp only [g_run_bind, GM.emit]
    simp only [pollBlock, List.append_assoc, List.cons_append, List.nil_append] at hrec ⊢
    rw [hrec]
    simp only [Prod.mk.injEq, GSt.mk.injEq, pollTrace, pollBlock, List.append_assoc,
      List.cons_append, List.nil_append, true_and]
    exact ⟨by omega, trivial⟩

/-- C10: every external command of the workflow watcher goes through the
single `run_command` helper, which terminates the whole process with
exit code 1 on any non-zero command exit; in particular a failing
trigger command, a failing status-query during polling, and a failing
artifact-download command all end the process with exit code 1 — no
command failure is tolerated or retried. -/
theorem watcher_command_failure_exits :
    (∀ (env : GEnv) (c : String) (st : GSt), (env.results st.calls).rc ≠ 0 →
        (run_command env c st).1 = Except.error 1) ∧
    (∀ (env : GEnv) (run_id : Nat) (output_dir : String) (st : GSt),
        (env.results st.calls).rc ≠ 0 →
        (download_artifacts env run_id output_dir st).1 = Except.error 1) ∧
    (∀ (env : GEnv) (run_id fuel : Nat) (st : GSt),
        (env.results st.calls).rc ≠ 0 →
        (monitor_loop env run_id (fuel + 1) st).1 = Except.error 1) ∧
    (∀ (env : GEnv) (workflow branch : String) (st : GSt),
        (env.results st.calls).rc ≠ 0 →
        (trigger_workflow env workflow branch st).1 = Except.error 1) := by
  refine ⟨?_, ?_, ?_, ?_⟩
  · intro env c st h
    simp [g_run_command_fail env c st h]
  · intro env rid dir st h
    have hb : ((env.results st.calls).rc != 0) = true := by simpa using h
    simp [download_artifacts, g_run_bind, GM.printE, GM.emit, run_command, hb]
  · intro env rid fuel st h
    simp [monitor_loop, g_run_bind, g_run_command_fail env _ st h]
  · intro env wf br st h
    have hb : ((env.results st.calls).rc != 0) = true := by simpa using h
    simp [trigger_workflow, g_run_bind, GM.printE, GM.emit, run_command, hb]

/-- Witness for C10 at a concrete world in which every command exits
with code 7. -/
theorem watcher_command_failure_exits_witness :
    (run_command gaFailCmdEnv "gh run view 42" { calls := 0, log := [] }).1 =
      Except.error 1 ∧
    (download_artifacts gaFailCmdEnv 42 "./artifacts" { calls := 0, log := [] }).1 =
      Except.error 1 ∧
    (monitor_loop gaFailCmdEnv 42 1 { calls := 0, log := [] }).1 = Except.error 1 ∧
    (trigger_workflow gaFailCmdEnv "build.yml" "main" { calls := 0, log := [] }).1 =
      Except.error 1 :=
  ⟨watcher_command_failure_exits.1 gaFailCmdEnv "gh run view 42" _ (by decide),
   watcher_command_failure_exits.2.1 gaFailCmdEnv 42 "./artifacts" _ (by decide),
   watcher_command_failure_exits.2.2.1 gaFailCmdEnv 42 0 _ (by decide),
   watcher_command_failure_exits.2.2.2 gaFailCmdEnv "build.yml" "main" _ (by decide)⟩

/-- C5: when the first polled status is terminal with conclusion
`success`, exactly one artifact-download command is issued and the
watcher terminates normally; when the terminal conclusion is anything
other than `success` the process exits with code 1, and in particular
for the conclusions `failure` and `cancelled` no download command is
issued; and while the status stays non-terminal the loop keeps polling —
for every `n`, `n` consecutive non-terminal polls produce exactly the
`n` status queries each followed by the fixed 30-unit sleep, with no
timeout built in. -/
theorem workflow_watch_behaviour :
    ((ga_main (gaEnv "completed" "success") "build.yml" "main" "./artifacts" 1
        { calls := 0, log := [] }).1 = Except.ok (some ()) ∧
      ((ga_main (gaEnv "completed" "success") "build.yml" "main" "./artifacts" 1
        { calls := 0, log := [] }).2.log.countP isDownloadCmd) = 1) ∧
    (∀ concl : String, (pyStrip concl == "success") = false →
      (ga_main (gaEnv "completed" concl) "build.yml" "main" "./artifacts" 1
        { calls := 0, log := [] }).1 = Except.error 1) ∧
    (((ga_main (gaEnv "completed" "failure") "build.yml" "main" "./artifacts" 1
        { calls := 0, log := [] }).2.log.countP isDownloadCmd) = 0 ∧
      ((ga_main (gaEnv "completed" "cancelled") "build.yml" "main" "./artifacts" 1
        { calls := 0, log := [] }).2.log.countP isDownloadCmd) = 0) ∧
    (∀ (env : GEnv) (run_id : Nat) (n : Nat) (st : GSt),
      (∀ i < n, (env.results (st.calls + i)).rc = 0 ∧
        pyStrip (env.results (st.calls + i)).out ∉
          (["completed", "cancelled", "failure"] : List String)) →
      monitor_loop env run_id n st =
        (Except.ok none,
         GSt.mk (st.calls + n) (st.log ++ pollTrace env run_id st.calls n))) := by
  refine ⟨⟨rfl, by decide⟩, ?_, ⟨by decide, by decide⟩,
    fun env run_id n st h => monitor_polls env run_id n st h⟩
  intro concl h
  have hps : pyStrip "completed" = "completed" := rfl
  simp [ga_main, trigger_workflow, monitor_workflow, monitor_loop, download_artifacts,
    g_run_bind, g_run_pure, GM.printE, GM.emit, GM.sleep, GM.exit, run_command, gaEnv, h, hps]

/-- Witness for C5: the non-success branch at the concrete conclusion
`failure`, and two non-terminal polls in the always-`in_progress` world. -/
theorem workflow_watch_behaviour_witness :
    (ga_main (gaEnv "completed" "failure") "build.yml" "main" "./artifacts" 1
        { calls := 0, log := [] }).1 = Except.error 1 ∧
    monitor_loop gaPollEnv 42 2 { calls := 0, log := [] } =
      (Except.ok none, GSt.mk 2 (pollTrace gaPollEnv 42 0 2)) := by
  refine ⟨workflow_watch_behaviour.2.1 "failure" (by decide), ?_⟩
  have := workflow_watch_behaviour.2.2.2 gaPollEnv 42 2 { calls := 0, log := [] } (by decide)
  simpa using this

end GA

end PortableComfyui
